import Mathlib

/-!
Shallow embedding of the PMMCandles market-making strategy (src/script2.py).

Decimal values are modelled as rationals (ℚ); external calls that may raise
a Python exception are modelled as `Except Unit` values supplied by an
environment structure; the order gateway is modelled by the list of calls a
refresh cycle emits.
-/

/-- Side of a trade (hummingbot `TradeType.BUY` / `TradeType.SELL`). -/
inductive TradeType where
  | BUY
  | SELL
  deriving DecidableEq, Repr

/-- An order candidate as built by `create_proposal` (constant fields such as
the trading pair and `OrderType.LIMIT` are omitted). -/
structure OrderCandidate where
  order_side : TradeType
  amount : ℚ
  price : ℚ
  is_maker : Bool
  deriving DecidableEq, Repr

/-- The strategy's configuration attributes (`base_order_amount`,
`min_spread`, `max_spread`, `order_refresh_time` of `PMMCandles`). -/
structure Config where
  base_order_amount : ℚ
  min_spread : ℚ
  max_spread : ℚ
  order_refresh_time : ℚ
  deriving Repr

/-- The source's configured values: `base_order_amount = 0.01`,
`min_spread = 0.0001`, `max_spread = 0.0010`, `order_refresh_time = 15`. -/
def cfg0 : Config := ⟨1/100, 1/10000, 1/1000, 15⟩

/-- Environment seen by `create_proposal`: the candles-ready flag and each
external read, which may raise (`Except.error`). -/
structure MarketEnv where
  candles_ready : Bool
  get_ref_price : Except Unit ℚ
  quote_balance : Except Unit ℚ
  base_balance : Except Unit ℚ
  recent_high : Except Unit ℚ
  recent_low : Except Unit ℚ

/-- script2.py line 95: `min(max_spread, max(min_spread, recent_range * 0.5))`
with `recent_range = (recent_high - recent_low) / ref_price` (line 94). -/
def dynamic_spread (cfg : Config) (recent_high recent_low ref_price : ℚ) : ℚ :=
  min cfg.max_spread (max cfg.min_spread ((recent_high - recent_low) / ref_price * (1/2)))

/-- script2.py lines 98-101:
`min(base_order_amount, quote_balance * 0.01 / ref_price)`. -/
def buy_amount (cfg : Config) (quote_balance ref_price : ℚ) : ℚ :=
  min cfg.base_order_amount (quote_balance * (1/100) / ref_price)

/-- script2.py lines 102-105: `min(base_order_amount, base_balance * 0.01)`. -/
def sell_amount (cfg : Config) (base_balance : ℚ) : ℚ :=
  min cfg.base_order_amount (base_balance * (1/100))

/-- script2.py line 108: `ref_price * (1 - dynamic_spread)`. -/
def buy_price (ref_price spread : ℚ) : ℚ := ref_price * (1 - spread)

/-- script2.py line 109: `ref_price * (1 + dynamic_spread)`. -/
def sell_price (ref_price spread : ℚ) : ℚ := ref_price * (1 + spread)

/-- The `try` block of `create_proposal` (lines 78-130): each external read
may raise, propagating the exception; a zero (falsy) reference price returns
`[]`; otherwise the buy and sell candidates are built and returned
unconditionally as a two-element list (line 130). -/
def create_proposal_try (cfg : Config) (env : MarketEnv) :
    Except Unit (List OrderCandidate) :=
  match env.get_ref_price with
  | Except.error e => Except.error e
  | Except.ok ref_price =>
    if ref_price = 0 then Except.ok []
    else
      match env.quote_balance with
      | Except.error e => Except.error e
      | Except.ok quote_balance =>
        match env.base_balance with
        | Except.error e => Except.error e
        | Except.ok base_balance =>
          match env.recent_high with
          | Except.error e => Except.error e
          | Except.ok recent_high =>
            match env.recent_low with
            | Except.error e => Except.error e
            | Except.ok recent_low =>
              let spread := dynamic_spread cfg recent_high recent_low ref_price
              Except.ok
                [⟨TradeType.BUY, buy_amount cfg quote_balance ref_price,
                    buy_price ref_price spread, true⟩,
                 ⟨TradeType.SELL, sell_amount cfg base_balance,
                    sell_price ref_price spread, true⟩]

/-- `create_proposal` (lines 73-134): returns `[]` when candles are not ready
(line 74-76); any exception in the body is caught and yields `[]` (132-134). -/
def create_proposal (cfg : Config) (env : MarketEnv) : List OrderCandidate :=
  if env.candles_ready then
    match create_proposal_try cfg env with
    | Except.ok p => p
    | Except.error _ => []
  else []

/-- `calculate_expected_profit` (lines 148-159): a failed mid-price fetch is
caught and yields `0`; otherwise `price - mid` for a sell, `mid - price`
for a buy. -/
def calculate_expected_profit (mid : Except Unit ℚ) (order : OrderCandidate) : ℚ :=
  match mid with
  | Except.ok mid_price =>
      if order.order_side = TradeType.SELL then order.price - mid_price
      else mid_price - order.price
  | Except.error _ => 0

/-- A call made to the order gateway during a refresh cycle. -/
inductive GatewayCall where
  | cancel (order_id : ℕ)
  | submit (side : TradeType) (amount price : ℚ)
  deriving DecidableEq, Repr

/-- `place_orders` (lines 143-146): for each order in sequence, the current
mid price is fetched (`mids i` for the i-th fetch) and the order submitted
iff the expected profit is strictly positive. -/
def place_orders (mids : ℕ → Except Unit ℚ) :
    List OrderCandidate → ℕ → List GatewayCall
  | [], _ => []
  | order :: rest, i =>
      (if calculate_expected_profit (mids i) order > 0
        then [GatewayCall.submit order.order_side order.amount order.price]
        else [])
        ++ place_orders mids rest (i + 1)

/-- `cancel_all_orders` (lines 184-189): the `try` wraps the whole loop, so
the first cancel that raises aborts the remaining iterations; the exception
is caught. Emits one cancel call per order processed before a failure. -/
def cancel_all_orders : List ℕ → (ℕ → Bool) → List GatewayCall
  | [], _ => []
  | o :: rest, cancel_fails =>
      if cancel_fails o then []
      else GatewayCall.cancel o :: cancel_all_orders rest cancel_fails

/-- `adjust_proposal_to_budget` (lines 136-141): delegates to the external
budget checker; an exception is caught and yields `[]`. -/
def adjust_proposal_to_budget
    (budget_adjust : List OrderCandidate → Except Unit (List OrderCandidate))
    (proposal : List OrderCandidate) : List OrderCandidate :=
  match budget_adjust proposal with
  | Except.ok adjusted => adjusted
  | Except.error _ => []

/-- Environment of one `on_tick` call: the resting orders, which cancels
raise, the market reads, the budget collaborator and the per-fetch mid
prices. -/
structure TickEnv where
  active_orders : List ℕ
  cancel_fails : ℕ → Bool
  market : MarketEnv
  budget_adjust : List OrderCandidate → Except Unit (List OrderCandidate)
  mids : ℕ → Except Unit ℚ

/-- Mutable strategy state relevant to the refresh cycle. -/
structure StratState where
  create_timestamp : ℚ
  total_profit : ℚ

/-- The submission part of a cycle (lines 58-62): build the proposal; if
non-empty (Python truthiness), budget-adjust it; if the adjusted list is
non-empty, run `place_orders` on it. -/
def submit_calls (cfg : Config) (env : TickEnv) : List GatewayCall :=
  let proposal := create_proposal cfg env.market
  if proposal = [] then []
  else
    let adjusted := adjust_proposal_to_budget env.budget_adjust proposal
    if adjusted = [] then []
    else place_orders env.mids adjusted 0

/-- `on_tick` (lines 55-63): when `create_timestamp <= current_timestamp`,
cancel all resting orders, run the proposal pipeline, and set
`create_timestamp = order_refresh_time + current_timestamp`. -/
def on_tick (cfg : Config) (st : StratState) (now : ℚ) (env : TickEnv) :
    StratState × List GatewayCall :=
  if st.create_timestamp ≤ now then
    ({ st with create_timestamp := cfg.order_refresh_time + now },
      cancel_all_orders env.active_orders env.cancel_fails ++ submit_calls cfg env)
  else (st, [])

/-- A fill event (`OrderFilledEvent` fields used by `did_fill_order`). -/
structure FillEvent where
  trade_type : TradeType
  amount : ℚ
  price : ℚ
  deriving DecidableEq, Repr

/-- `did_fill_order` (lines 191-202): `total_profit += amount * price` on a
sell fill, `total_profit -= amount * price` on a buy fill. -/
def did_fill_order (total_profit : ℚ) (event : FillEvent) : ℚ :=
  if event.trade_type = TradeType.SELL then total_profit + event.amount * event.price
  else total_profit - event.amount * event.price

/-- Total profit after a sequence of fills, starting from
`total_profit = Decimal('0')` (line 48). -/
def apply_fills (events : List FillEvent) : ℚ :=
  events.foldl did_fill_order 0

/-- C1: for positive balances and reference price, the buy and sell sizes
computed by the proposal-creation step are non-negative and never exceed
`base_order_amount` (which configuration keeps non-negative). -/
theorem C1_order_sizes_bounded (cfg : Config) (quote_balance base_balance ref_price : ℚ)
    (hbase : 0 ≤ cfg.base_order_amount) (hq : 0 < quote_balance)
    (hb : 0 < base_balance) (hp : 0 < ref_price) :
    0 ≤ buy_amount cfg quote_balance ref_price ∧
    buy_amount cfg quote_balance ref_price ≤ cfg.base_order_amount ∧
    0 ≤ sell_amount cfg base_balance ∧
    sell_amount cfg base_balance ≤ cfg.base_order_amount := by
  unfold buy_amount sell_amount
  refine ⟨le_min hbase ?_, min_le_left _ _, le_min hbase ?_, min_le_left _ _⟩
  · positivity
  · positivity

/-- C1 witness: the bounds hold at the configured `cfg0` with quote balance
200, base balance 3, reference price 100. -/
theorem C1_order_sizes_bounded_witness :
    ((0:ℚ) ≤ cfg0.base_order_amount ∧ (0:ℚ) < 200 ∧ (0:ℚ) < 3 ∧ (0:ℚ) < 100) ∧
    (0 ≤ buy_amount cfg0 200 100 ∧
     buy_amount cfg0 200 100 ≤ cfg0.base_order_amount ∧
     0 ≤ sell_amount cfg0 3 ∧
     sell_amount cfg0 3 ≤ cfg0.base_order_amount) :=
  ⟨⟨by norm_num [cfg0], by norm_num, by norm_num, by norm_num⟩,
   C1_order_sizes_bounded cfg0 200 3 100 (by norm_num [cfg0]) (by norm_num)
     (by norm_num) (by norm_num)⟩

/-- A market environment with candles ready, reference price 100, zero quote
balance (so the sized buy amount is 0), base balance 5, recent high 101 and
recent low 99. -/
def env_c2 : MarketEnv :=
  ⟨true, Except.ok 100, Except.ok 0, Except.ok 5, Except.ok 101, Except.ok 99⟩

/-- C2 counterexample: with the quote balance 0 the buy side's sized amount
is 0, yet `create_proposal` still returns two quotes — the zero-sized side
is NOT omitted (line 130 always returns `[buy_order, sell_order]`). -/
theorem C2_counterexample :
    (create_proposal cfg0 env_c2).map OrderCandidate.amount = [0, 1/100] ∧
    (create_proposal cfg0 env_c2).length = 2 := by
  constructor <;>
    norm_num [create_proposal, create_proposal_try, env_c2, cfg0, buy_amount,
      sell_amount, dynamic_spread, min_def, max_def]

/-- C2 amended: when the candles feed is ready, every external read succeeds
and the reference price is non-zero, the proposal contains exactly two
quotes (one buy then one sell, both maker) — regardless of whether a side's
sized amount is zero. -/
theorem C2_proposal_always_two_quotes (cfg : Config) (rp qb bb rh rl : ℚ)
    (hrp : rp ≠ 0) :
    (create_proposal cfg
        ⟨true, Except.ok rp, Except.ok qb, Except.ok bb,
          Except.ok rh, Except.ok rl⟩).length = 2 ∧
    (create_proposal cfg
        ⟨true, Except.ok rp, Except.ok qb, Except.ok bb,
          Except.ok rh, Except.ok rl⟩).map OrderCandidate.order_side =
      [TradeType.BUY, TradeType.SELL] := by
  simp [create_proposal, create_proposal_try, hrp]

/-- C2 witness: the amended statement at reference price 100, quote balance
0, base balance 5, recent high 101, recent low 99. -/
theorem C2_proposal_always_two_quotes_witness :
    (100:ℚ) ≠ 0 ∧
    ((create_proposal cfg0
        ⟨true, Except.ok 100, Except.ok 0, Except.ok 5,
          Except.ok 101, Except.ok 99⟩).length = 2 ∧
     (create_proposal cfg0
        ⟨true, Except.ok 100, Except.ok 0, Except.ok 5,
          Except.ok 101, Except.ok 99⟩).map OrderCandidate.order_side =
       [TradeType.BUY, TradeType.SELL]) :=
  ⟨by norm_num,
   C2_proposal_always_two_quotes cfg0 100 0 5 101 99 (by norm_num)⟩

/-- A tick environment whose feed is not ready and which has one resting
order (id 7) whose cancellation succeeds. -/
def env_c3 : TickEnv :=
  { active_orders := [7]
    cancel_fails := fun _ => false
    market := ⟨false, Except.ok 100, Except.ok 1, Except.ok 1,
      Except.ok 101, Except.ok 99⟩
    budget_adjust := Except.ok
    mids := fun _ => Except.ok 100 }

/-- C3 counterexample: at a triggered tick with the feed not ready,
`create_proposal` does return `[]`, but a cancel call IS made to the order
gateway for the resting order — `on_tick` (line 57) cancels before checking
feed readiness. -/
theorem C3_counterexample :
    create_proposal cfg0 env_c3.market = [] ∧
    (on_tick cfg0 ⟨0, 0⟩ 10 env_c3).2 = [GatewayCall.cancel 7] := by
  constructor <;> rfl

/-- C3 amended: at every triggered tick with the feed not ready,
`create_proposal` returns `[]` and no submit call is made; the cycle's
gateway calls are exactly the cancels of `cancel_all_orders` (which still
runs). -/
theorem C3_not_ready_no_submit (cfg : Config) (st : StratState) (now : ℚ)
    (env : TickEnv) (htrig : st.create_timestamp ≤ now)
    (hready : env.market.candles_ready = false) :
    create_proposal cfg env.market = [] ∧
    (on_tick cfg st now env).2 =
      cancel_all_orders env.active_orders env.cancel_fails ∧
    ∀ c ∈ (on_tick cfg st now env).2, ∃ i, c = GatewayCall.cancel i := by
  have hprop : create_proposal cfg env.market = [] := by
    simp [create_proposal, hready]
  have hsub : submit_calls cfg env = [] := by
    simp [submit_calls, hprop]
  have hcalls : (on_tick cfg st now env).2 =
      cancel_all_orders env.active_orders env.cancel_fails := by
    simp [on_tick, htrig, hsub]
  refine ⟨hprop, hcalls, ?_⟩
  rw [hcalls]
  have : ∀ (l : List ℕ) (f : ℕ → Bool),
      ∀ c ∈ cancel_all_orders l f, ∃ i, c = GatewayCall.cancel i := by
    intro l
    induction l with
    | nil => intro f c hc; simp [cancel_all_orders] at hc
    | cons o rest ih =>
        intro f c hc
        by_cases hf : f o
        · simp [cancel_all_orders, hf] at hc
        · simp only [cancel_all_orders, hf, if_neg, Bool.false_eq_true,
            not_false_iff, List.mem_cons] at hc
          rcases hc with h | h
          · exact ⟨o, h⟩
          · exact ih f c h
  exact this env.active_orders env.cancel_fails

/-- C3 witness: the amended statement at the concrete environment `env_c3`
with state `(0, 0)` at time 10. -/
theorem C3_not_ready_no_submit_witness :
    ((0:ℚ) ≤ 10 ∧ env_c3.market.candles_ready = false) ∧
    (create_proposal cfg0 env_c3.market = [] ∧
     (on_tick cfg0 ⟨0, 0⟩ 10 env_c3).2 =
       cancel_all_orders env_c3.active_orders env_c3.cancel_fails ∧
     ∀ c ∈ (on_tick cfg0 ⟨0, 0⟩ 10 env_c3).2, ∃ i, c = GatewayCall.cancel i) :=
  ⟨⟨by norm_num, rfl⟩,
   C3_not_ready_no_submit cfg0 ⟨0, 0⟩ 10 env_c3 (by norm_num) rfl⟩

/-- C4: with `min_spread ≤ max_spread`, the dynamic spread
`min(max_spread, max(min_spread, range * 0.5))` lies within
`[min_spread, max_spread]` for every high ≥ low ≥ 0 and positive reference
price (including zero and arbitrarily large ranges). -/
theorem C4_spread_clamped (cfg : Config) (recent_high recent_low ref_price : ℚ)
    (hmm : cfg.min_spread ≤ cfg.max_spread) (hhl : recent_low ≤ recent_high)
    (hl0 : 0 ≤ recent_low) (hp : 0 < ref_price) :
    cfg.min_spread ≤ dynamic_spread cfg recent_high recent_low ref_price ∧
    dynamic_spread cfg recent_high recent_low ref_price ≤ cfg.max_spread := by
  unfold dynamic_spread
  exact ⟨le_min hmm (le_max_left _ _), min_le_left _ _⟩

/-- C4 witness: the clamp holds at `cfg0` with high 2010, low 1990, reference
price 2000 (the spec's end-to-end scenario). -/
theorem C4_spread_clamped_witness :
    (cfg0.min_spread ≤ cfg0.max_spread ∧ (1990:ℚ) ≤ 2010 ∧ (0:ℚ) ≤ 1990 ∧
      (0:ℚ) < 2000) ∧
    (cfg0.min_spread ≤ dynamic_spread cfg0 2010 1990 2000 ∧
     dynamic_spread cfg0 2010 1990 2000 ≤ cfg0.max_spread) :=
  ⟨⟨by norm_num [cfg0], by norm_num, by norm_num, by norm_num⟩,
   C4_spread_clamped cfg0 2010 1990 2000 (by norm_num [cfg0]) (by norm_num)
     (by norm_num) (by norm_num)⟩

/-- C5: for a positive reference price and a spread fraction within
`[min_spread, max_spread]` with `min_spread > 0`, the built prices satisfy
`buy_price < ref_price < sell_price`. -/
theorem C5_price_ordering (ref_price spread mn mx : ℚ) (hp : 0 < ref_price)
    (hmn : 0 < mn) (h1 : mn ≤ spread) (h2 : spread ≤ mx) :
    buy_price ref_price spread < ref_price ∧
    ref_price < sell_price ref_price spread := by
  have hs : 0 < spread := lt_of_lt_of_le hmn h1
  have hps : 0 < ref_price * spread := mul_pos hp hs
  unfold buy_price sell_price
  constructor <;> nlinarith

/-- C5 witness: the ordering at reference price 2000 and spread 0.001 within
bounds [0.0001, 0.0010]. -/
theorem C5_price_ordering_witness :
    ((0:ℚ) < 2000 ∧ (0:ℚ) < 1/10000 ∧ (1/10000:ℚ) ≤ 1/1000 ∧
      (1/1000:ℚ) ≤ 1/1000) ∧
    (buy_price 2000 (1/1000) < 2000 ∧ (2000:ℚ) < sell_price 2000 (1/1000)) :=
  ⟨⟨by norm_num, by norm_num, by norm_num, by norm_num⟩,
   C5_price_ordering 2000 (1/1000) (1/10000) (1/1000) (by norm_num)
     (by norm_num) (by norm_num) (by norm_num)⟩

/-- C6: with a successfully fetched mid price `m`, the placement loop submits
an order iff its expected edge (`price - m` for a sell, `m - price` for a
buy) is strictly positive; an order priced exactly at mid (edge 0) is not
submitted. -/
theorem C6_profit_filter_iff (m : ℚ) (o : OrderCandidate) :
    (place_orders (fun _ => Except.ok m) [o] 0 =
        [GatewayCall.submit o.order_side o.amount o.price] ↔
      0 < (if o.order_side = TradeType.SELL then o.price - m else m - o.price)) ∧
    ((if o.order_side = TradeType.SELL then o.price - m else m - o.price) = 0 →
      place_orders (fun _ => Except.ok m) [o] 0 = []) := by
  have hcep : calculate_expected_profit (Except.ok m) o =
      (if o.order_side = TradeType.SELL then o.price - m else m - o.price) := rfl
  by_cases h : 0 < (if o.order_side = TradeType.SELL then o.price - m else m - o.price)
  · refine ⟨⟨fun _ => h, fun _ => ?_⟩, fun h0 => absurd (h0 ▸ h) (lt_irrefl 0)⟩
    simp [place_orders, hcep, h]
  · refine ⟨⟨fun hplace => ?_, fun hpos => absurd hpos h⟩, fun _ => ?_⟩
    · exfalso
      simp [place_orders, hcep, h] at hplace
    · simp [place_orders, hcep, h]

/-- C7: the PnL accumulator adds `amount * price` on a sell fill and
subtracts it on a buy fill, starting from 0; the spec's two example
sequences evaluate to 10 and -40. -/
theorem C7_pnl_accumulator :
    (∀ (t : ℚ) (e : FillEvent),
      did_fill_order t e =
        if e.trade_type = TradeType.SELL then t + e.amount * e.price
        else t - e.amount * e.price) ∧
    apply_fills [⟨TradeType.SELL, 1, 100⟩, ⟨TradeType.BUY, 1, 90⟩] = 10 ∧
    apply_fills [⟨TradeType.BUY, 2, 50⟩, ⟨TradeType.SELL, 1, 60⟩] = -40 := by
  have hBS : TradeType.BUY ≠ TradeType.SELL := fun h => TradeType.noConfusion h
  refine ⟨fun _ _ => rfl, ?_, ?_⟩ <;>
    norm_num [apply_fills, did_fill_order, if_neg hBS]

/-- C8: at every triggered tick (deadline reached), the next-refresh
timestamp becomes `order_refresh_time + now`, for every environment — feed
not ready, zero reference price, failing reads, empty budget adjustment or
failing mid-price fetches included. -/
theorem C8_refresh_always_advances (cfg : Config) (st : StratState) (now : ℚ)
    (env : TickEnv) (htrig : st.create_timestamp ≤ now) :
    (on_tick cfg st now env).1.create_timestamp = cfg.order_refresh_time + now := by
  simp [on_tick, htrig]

/-- A tick environment in which every stage fails: every cancel raises, every
market read raises, the budget checker raises and every mid-price fetch
raises. -/
def env_allfail : TickEnv :=
  { active_orders := [1, 2]
    cancel_fails := fun _ => true
    market := ⟨true, Except.error (), Except.error (), Except.error (),
      Except.error (), Except.error ()⟩
    budget_adjust := fun _ => Except.error ()
    mids := fun _ => Except.error () }

/-- C8 witness: the timestamp advances to `15 + 20` even in the environment
where every stage fails. -/
theorem C8_refresh_always_advances_witness :
    ((0:ℚ) ≤ 20) ∧
    (on_tick cfg0 ⟨0, 0⟩ 20 env_allfail).1.create_timestamp =
      cfg0.order_refresh_time + 20 :=
  ⟨by norm_num, C8_refresh_always_advances cfg0 ⟨0, 0⟩ 20 env_allfail (by norm_num)⟩

/-- C9: when the mid-price fetch for the order at the head of the loop
raises, its computed expected profit is 0 (so the order is not submitted,
0 not being strictly positive) and the loop continues over the remaining
orders unchanged. -/
theorem C9_midprice_failure_fail_closed (mids : ℕ → Except Unit ℚ)
    (o : OrderCandidate) (rest : List OrderCandidate)
    (h : mids 0 = Except.error ()) :
    calculate_expected_profit (mids 0) o = 0 ∧
    place_orders mids (o :: rest) 0 = place_orders mids rest 1 := by
  constructor
  · rw [h]; rfl
  · simp [place_orders, calculate_expected_profit, h]

/-- Mid-price oracle whose first fetch raises and whose later fetches return
100. -/
def mids_c9 : ℕ → Except Unit ℚ := fun i => if i = 0 then Except.error () else Except.ok 100

/-- A sell order candidate priced at 200 (well above the 100 mid). -/
def o_c9 : OrderCandidate := ⟨TradeType.SELL, 1/100, 200, true⟩

/-- C9 witness: with the first fetch raising, the head order's expected
profit is 0 and the loop result equals processing the tail from index 1. -/
theorem C9_midprice_failure_fail_closed_witness :
    mids_c9 0 = Except.error () ∧
    (calculate_expected_profit (mids_c9 0) o_c9 = 0 ∧
     place_orders mids_c9 [o_c9, o_c9] 0 = place_orders mids_c9 [o_c9] 1) :=
  ⟨rfl, C9_midprice_failure_fail_closed mids_c9 o_c9 [o_c9] rfl⟩

/-- The cancel loop stops at the first order whose cancellation raises:
only the preceding orders' cancel calls are emitted. -/
theorem cancel_all_orders_stops (cancel_fails : ℕ → Bool) (bad : ℕ) (post : List ℕ)
    (hbad : cancel_fails bad = true) :
    ∀ pre : List ℕ, (∀ o ∈ pre, cancel_fails o = false) →
      cancel_all_orders (pre ++ bad :: post) cancel_fails =
        pre.map GatewayCall.cancel
  | [], _ => by simp [cancel_all_orders, hbad]
  | o :: pre, hpre => by
      have ho : cancel_fails o = false := hpre o (by simp)
      simp only [List.cons_append, cancel_all_orders, ho, Bool.false_eq_true,
        if_false, List.map_cons]
      exact congrArg _ (cancel_all_orders_stops cancel_fails bad post hbad pre
        (fun x hx => hpre x (by simp [hx])))

/-- C10: when the resting orders are `pre ++ bad :: post`, cancelling each
order in `pre` succeeds and cancelling `bad` raises, the cycle emits cancel
calls only for `pre` (all of `post` is skipped), and still proceeds to
proposal creation and submission (`submit_calls`). -/
theorem C10_cancel_failure_skips_rest (cfg : Config) (st : StratState) (now : ℚ)
    (env : TickEnv) (pre post : List ℕ) (bad : ℕ)
    (horders : env.active_orders = pre ++ bad :: post)
    (hpre : ∀ o ∈ pre, env.cancel_fails o = false)
    (hbad : env.cancel_fails bad = true)
    (htrig : st.create_timestamp ≤ now) :
    cancel_all_orders env.active_orders env.cancel_fails =
      pre.map GatewayCall.cancel ∧
    (on_tick cfg st now env).2 =
      pre.map GatewayCall.cancel ++ submit_calls cfg env := by
  have hcancel : cancel_all_orders env.active_orders env.cancel_fails =
      pre.map GatewayCall.cancel := by
    rw [horders]
    exact cancel_all_orders_stops env.cancel_fails bad post hbad pre hpre
  refine ⟨hcancel, ?_⟩
  simp [on_tick, htrig, hcancel]

/-- A tick environment with resting orders 1, 2, 3 where cancelling order 2
raises; the market is ready with reference price 100 and the collaborators
succeed. -/
def env_c10 : TickEnv :=
  { active_orders := [1, 2, 3]
    cancel_fails := fun o => o = 2
    market := ⟨true, Except.ok 100, Except.ok 200, Except.ok 5,
      Except.ok 101, Except.ok 99⟩
    budget_adjust := Except.ok
    mids := fun _ => Except.ok 100 }

/-- C10 witness: with orders `[1, 2, 3]` and the cancel of 2 raising, only
order 1 is cancelled (3 is skipped) and the cycle still runs the submission
pipeline. -/
theorem C10_cancel_failure_skips_rest_witness :
    (env_c10.active_orders = [1] ++ 2 :: [3] ∧
      (∀ o ∈ [(1:ℕ)], env_c10.cancel_fails o = false) ∧
      env_c10.cancel_fails 2 = true ∧ (0:ℚ) ≤ 30) ∧
    (cancel_all_orders env_c10.active_orders env_c10.cancel_fails =
        [(1:ℕ)].map GatewayCall.cancel ∧
      (on_tick cfg0 ⟨0, 0⟩ 30 env_c10).2 =
        [(1:ℕ)].map GatewayCall.cancel ++ submit_calls cfg0 env_c10) :=
  ⟨⟨rfl, by decide, by decide, by norm_num⟩,
   C10_cancel_failure_skips_rest cfg0 ⟨0, 0⟩ 30 env_c10 [1] [3] 2 rfl
     (by decide) (by decide) (by norm_num)⟩
